import Mathlib

/-!
Shallow embedding of the map-shine render-target pipeline and update
scheduler (src/scripts/module.js), covering:

* ProceduralPatternLayer (module.js:1633-1820): scheduler state
  (_frameCount, _needsUpdate, updateFrequency), updateFromConfig,
  _setupFilters, _onAnimate;
* NoiseTextureManager (module.js:3575-3668): lazy filter compilation,
  updateFromConfig, update;
* MetallicShineLayer (module.js:4341-4581): updateFromConfig (visibility
  gating), updateEffectTargets (sprite-map refresh), _onAnimate;
* CloudShadowsLayer (module.js:4583-4826): mask compositing, maskBlur
  gating, updateEffectTargets, _onResize;
* the window-resize dispatch (every layer that registered a resize
  listener runs its handler; ProceduralPatternLayer registers none).

Modelling conventions: JS doubles are modelled as Lean rationals (exact
arithmetic; the claims below never depend on floating-point rounding, only
on value equality under identical inputs and on sign comparisons).
`mathPi` is the exact rational value of the IEEE-754 double Math.PI.
GPU textures are modelled by the observable data the claims mention
(dimensions, which logical texture a uniform is bound to, write events).
Sprites are modelled by stable numeric identities drawn from a counter, so
that reuse versus destroy-and-recreate is observable.
-/

/-- Exact rational value of the IEEE-754 double Math.PI. -/
def mathPi : ℚ := 884279719003555 / 281474976710656

/-- Degrees to radians, as the source computes angle * (Math.PI / 180). -/
def degToRad (a : ℚ) : ℚ := a * (mathPi / 180)

/-- Camera inputs read from canvas.stage / renderer.screen each frame:
stage.toLocal({x:0,y:0}), screen.width, screen.height, stage.scale.x. -/
structure CameraState where
  topLeft : ℚ × ℚ
  screenW : ℚ
  screenH : ℚ
  scale : ℚ
deriving DecidableEq

/-- Abstract cosine/sine, passed in where the source calls Math.cos and
Math.sin (transcendental values are not rational; the claims never depend
on them beyond determinism). -/
structure TrigOracle where
  cos : ℚ → ℚ
  sin : ℚ → ℚ

/- ===================== configuration tree ===================== -/

/-- One stripes block of baseShine.pattern (module.js OVERLAY_CONFIG). -/
structure StripesConfig where
  enabled : Bool
  speed : ℚ
  intensity : ℚ
  angle : ℚ
  sharpness : ℚ
  bandDensity : ℚ
  bandWidth : ℚ
  subStripeMaxCount : ℚ
  subStripeMaxSharp : ℚ
deriving DecidableEq

/-- baseShine.noise configuration node. -/
structure NoiseConfig where
  enabled : Bool
  speed : ℚ
  scale : ℚ
  threshold : ℚ
  brightness : ℚ
  contrast : ℚ
  softness : ℚ
  evolution : Option ℚ
deriving DecidableEq

/-- baseShine.pattern.shared configuration node. -/
structure PatternSharedConfig where
  maxBrightness : ℚ
  patternScale : ℚ
deriving DecidableEq

/-- baseShine.pattern configuration node. -/
structure PatternConfig where
  shared : PatternSharedConfig
  stripes1 : StripesConfig
  stripes2 : StripesConfig
deriving DecidableEq

/-- baseShine.animation configuration node; updateFrequency is an integer
(the source clamps it with Math.max(0, v) when storing it). -/
structure AnimationConfig where
  globalIntensity : ℚ
  updateFrequency : Int
deriving DecidableEq

/-- baseShine.shineBloom configuration node. -/
structure BloomConfig where
  enabled : Bool
  threshold : ℚ
  blur : ℚ
  quality : ℚ
  brightness : ℚ
deriving DecidableEq

/-- baseShine.rgbSplit configuration node. -/
structure RgbSplitConfig where
  enabled : Bool
  amount : ℚ
deriving DecidableEq

/-- baseShine.starburst configuration node; blendMode is a PIXI enum. -/
structure StarburstConfig where
  enabled : Bool
  blendMode : Nat
  threshold : ℚ
  intensity : ℚ
  angle : ℚ
  points : ℚ
  size : ℚ
  falloff : ℚ
deriving DecidableEq

/-- baseShine.compositing configuration node. -/
structure CompositingConfig where
  layerBlendMode : Nat
deriving DecidableEq

/-- The baseShine subtree of the configuration. -/
structure BaseShineConfig where
  enabled : Bool
  animation : AnimationConfig
  pattern : PatternConfig
  noise : NoiseConfig
  shineBloom : BloomConfig
  rgbSplit : RgbSplitConfig
  starburst : StarburstConfig
  compositing : CompositingConfig
deriving DecidableEq

/-- cloudShadows.wind configuration node (both fields may be absent; the
source reads them with ?? defaults). -/
structure WindConfig where
  angle : Option ℚ
  speed : Option ℚ
deriving DecidableEq

/-- cloudShadows.noise configuration node. -/
structure CloudNoiseConfig where
  scale : ℚ
  octaves : ℚ
  persistence : ℚ
  lacunarity : ℚ
deriving DecidableEq

/-- cloudShadows.shading configuration node. -/
structure ShadingConfig where
  threshold : ℚ
  softness : ℚ
  brightness : ℚ
  contrast : ℚ
  gamma : ℚ
deriving DecidableEq

/-- The cloudShadows subtree of the configuration. -/
structure CloudShadowsConfig where
  enabled : Bool
  blendMode : Nat
  maskBlur : Option ℚ
  shadowIntensity : ℚ
  wind : WindConfig
  noise : CloudNoiseConfig
  shading : ShadingConfig
deriving DecidableEq

/-- The parts of OVERLAY_CONFIG the modelled layers read. -/
structure MapShineConfig where
  enabled : Bool
  baseShine : BaseShineConfig
  cloudShadows : CloudShadowsConfig
deriving DecidableEq

/- ===================== status reporting ===================== -/

/-- systemStatus state values used by the modelled code paths. -/
inductive StatusState where
  | ok
  | error
deriving DecidableEq

/-- A structured status report, as passed to systemStatus.update. -/
structure Status where
  state : StatusState
  message : String
deriving DecidableEq

/- ===================== NoiseTextureManager ===================== -/

/-- Uniforms of NoisePatternFilter, as written by
NoiseTextureManager.updateFromConfig and NoiseTextureManager.update
(module.js:3599-3657). Slots the constructor does not set start at 0 in
the model (undefined in JS); each is assigned before first use. -/
structure NoiseUniforms where
  time : ℚ
  cameraOffset : ℚ × ℚ
  viewSize : ℚ × ℚ
  canvasScale : ℚ
  speed : ℚ
  scale : ℚ
  threshold : ℚ
  brightness : ℚ
  contrast : ℚ
  softness : ℚ
  evolution : ℚ
deriving DecidableEq

/-- Uniform record produced by the NoisePatternFilter constructor call at
module.js:3605-3609 (u_time 0, u_camera_offset [0,0], u_view_size [0,0]). -/
def initNoiseUniforms : NoiseUniforms :=
  { time := 0, cameraOffset := (0, 0), viewSize := (0, 0), canvasScale := 0,
    speed := 0, scale := 0, threshold := 0, brightness := 0, contrast := 0,
    softness := 0, evolution := 0 }

/-- NoiseTextureManager.updateFromConfig (module.js:3599-3635). The filter
is compiled lazily on first call; a compile failure (catch branch) leaves
it null and returns before writing uniforms. compileOk abstracts whether
the NoisePatternFilter constructor succeeds (deterministic per session).
The configuration node is always present in OVERLAY_CONFIG, so the
`if (!n) return` guard is not reachable in the modelled state space. -/
def NoiseTextureManager.updateFromConfig (compileOk : Bool) (n : NoiseConfig)
    (filter : Option NoiseUniforms) : Option NoiseUniforms :=
  let f0 := match filter with
    | some f => some f
    | none => if compileOk then some initNoiseUniforms else none
  match f0 with
  | none => none
  | some f => some { f with
      speed := n.speed, scale := n.scale, threshold := n.threshold,
      brightness := n.brightness, contrast := n.contrast,
      softness := n.softness, evolution := n.evolution.getD 0 }

/-- NoiseTextureManager.update (module.js:3637-3657): bumps u_time, writes
the camera uniforms and renders the noise quad into its RenderTarget.
Returns the new filter state and whether the noise texture was written
this call (false when the filter is null: the guard at 3638 returns). -/
def NoiseTextureManager.update (dt : ℚ) (cam : CameraState)
    (filter : Option NoiseUniforms) : Option NoiseUniforms × Bool :=
  match filter with
  | none => (none, false)
  | some n =>
      (some { n with
        time := n.time + dt,
        cameraOffset := cam.topLeft,
        viewSize := (cam.screenW / cam.scale, cam.screenH / cam.scale),
        canvasScale := cam.scale }, true)

/- ===================== ProceduralPatternLayer ===================== -/

/-- Per-stripes uniform block of ShinePatternFilter. -/
structure StripeUniforms where
  enabled : Bool
  speed : ℚ
  intensity : ℚ
  angleRad : ℚ
  sharpness : ℚ
  bandDensity : ℚ
  bandWidth : ℚ
  subStripeMaxCount : ℚ
  subStripeMaxSharp : ℚ
deriving DecidableEq

/-- Uniforms of ShinePatternFilter (module.js:1688-1716, 1755-1777,
1791-1811). noiseMapBound records whether u_noiseMap has been pointed at
the noise manager texture (initially it is PIXI.Texture.EMPTY). -/
structure PatternUniforms where
  noiseMapBound : Bool
  time : ℚ
  cameraOffset : ℚ × ℚ
  viewSize : ℚ × ℚ
  canvasScale : ℚ
  globalIntensity : ℚ
  sharedMaxBrightness : ℚ
  sharedPatternScale : ℚ
  noiseEnabled : Bool
  s1 : StripeUniforms
  s2 : StripeUniforms
deriving DecidableEq

/-- The per-stripes uniform assignments shared by _setupFilters and
updateFromConfig (u_sN_speed := sN.speed, ..., u_sN_angle_rad :=
sN.angle * (Math.PI / 180)). -/
def stripeUniformsOfConfig (s : StripesConfig) : StripeUniforms :=
  { enabled := s.enabled, speed := s.speed, intensity := s.intensity,
    angleRad := degToRad s.angle, sharpness := s.sharpness,
    bandDensity := s.bandDensity, bandWidth := s.bandWidth,
    subStripeMaxCount := s.subStripeMaxCount,
    subStripeMaxSharp := s.subStripeMaxSharp }

/-- The initialUniforms record built in _setupFilters (module.js:1688-1716). -/
def initialPatternUniforms (screenW screenH canvasScale : ℚ)
    (bs : BaseShineConfig) : PatternUniforms :=
  { noiseMapBound := false, time := 0, cameraOffset := (0, 0),
    viewSize := (screenW, screenH), canvasScale := canvasScale,
    globalIntensity := bs.animation.globalIntensity,
    sharedMaxBrightness := bs.pattern.shared.maxBrightness,
    sharedPatternScale := bs.pattern.shared.patternScale,
    noiseEnabled := bs.noise.enabled,
    s1 := stripeUniformsOfConfig bs.pattern.stripes1,
    s2 := stripeUniformsOfConfig bs.pattern.stripes2 }

/-- The pattern uniform assignments of updateFromConfig
(module.js:1755-1777), field for field. -/
def patternUniformsOfConfig (bs : BaseShineConfig) (u : PatternUniforms) : PatternUniforms :=
  { u with
    globalIntensity := bs.animation.globalIntensity,
    sharedMaxBrightness := bs.pattern.shared.maxBrightness,
    sharedPatternScale := bs.pattern.shared.patternScale,
    noiseEnabled := bs.noise.enabled,
    s1 := stripeUniformsOfConfig bs.pattern.stripes1,
    s2 := stripeUniformsOfConfig bs.pattern.stripes2 }

/-- ProceduralPatternLayer state (module.js:1633-1648): the compiled
ShinePatternFilter (null on compile failure), the NoiseTextureManager
filter it owns, and the scheduler fields _frameCount / _needsUpdate /
updateFrequency. -/
structure ProceduralPatternLayer where
  shineFilter : Option PatternUniforms
  noiseManager : Option NoiseUniforms
  updateFrequency : Nat
  frameCount : Nat
  needsUpdate : Bool
deriving DecidableEq

/-- ProceduralPatternLayer._setupFilters (module.js:1718-1728): the
ShinePatternFilter constructor either succeeds (state ok, message
"Compiled successfully.") or throws; the catch leaves the filter null and
reports state error with the message prefix "Compilation failed: ".
No exception escapes: the embedding is a total function. -/
def ProceduralPatternLayer.setupFilters (compileResult : Except String Unit)
    (screenW screenH canvasScale : ℚ) (bs : BaseShineConfig) :
    Option PatternUniforms × Status :=
  match compileResult with
  | Except.ok _ =>
      (some (initialPatternUniforms screenW screenH canvasScale bs),
       { state := StatusState.ok, message := "Compiled successfully." })
  | Except.error msg =>
      (none,
       { state := StatusState.error, message := "Compilation failed: " ++ msg })

/-- ProceduralPatternLayer.updateFromConfig (module.js:1740-1780). Returns
immediately when the shine filter is null. Otherwise forwards the config
to the noise manager, clamps and stores updateFrequency when it changed,
rewrites every pattern uniform from the config, and unconditionally sets
_needsUpdate (line 1779; the conditional set at line 1752 is subsumed). -/
def ProceduralPatternLayer.updateFromConfig (noiseCompileOk : Bool)
    (config : MapShineConfig) (self : ProceduralPatternLayer) :
    ProceduralPatternLayer :=
  match self.shineFilter with
  | none => self
  | some u =>
      let nm := NoiseTextureManager.updateFromConfig noiseCompileOk
        config.baseShine.noise self.noiseManager
      let bs := config.baseShine
      let newFrequency := bs.animation.updateFrequency
      let freq :=
        if Int.ofNat self.updateFrequency ≠ newFrequency then
          (max 0 newFrequency).toNat
        else self.updateFrequency
      let u1 := patternUniformsOfConfig bs u
      { self with shineFilter := some u1, noiseManager := nm,
                  updateFrequency := freq, needsUpdate := true }

/-- Events observable in one ProceduralPatternLayer frame: a write of the
noise RenderTarget and a write of the pattern RenderTarget. -/
inductive RenderEvent where
  | noiseWrite
  | patternWrite
deriving DecidableEq

/-- ProceduralPatternLayer._onAnimate (module.js:1786-1819). Returns the
new layer state, whether the pattern RenderTarget was written, and the
ordered list of render-target writes performed during the call. The
scheduler logic: _frameCount++ always; render when _needsUpdate or when
updateFrequency > 0 and _frameCount % updateFrequency == 0; a render
first runs the noise manager update, then binds its texture and renders
the pattern quad, then clears _needsUpdate. -/
def ProceduralPatternLayer.onAnimate (dt : ℚ) (cam : CameraState)
    (self : ProceduralPatternLayer) :
    ProceduralPatternLayer × Bool × List RenderEvent :=
  match self.shineFilter with
  | none => (self, false, [])
  | some u =>
      let fc := self.frameCount + 1
      let u0 := { u with time := u.time + dt }
      if self.needsUpdate ∨ (0 < self.updateFrequency ∧ fc % self.updateFrequency = 0) then
        let nw := NoiseTextureManager.update dt cam self.noiseManager
        let u1 := { u0 with
          cameraOffset := cam.topLeft,
          viewSize := (cam.screenW / cam.scale, cam.screenH / cam.scale),
          noiseMapBound := true,
          canvasScale := cam.scale }
        ({ self with shineFilter := some u1, noiseManager := nw.1,
                     frameCount := fc, needsUpdate := false },
         true,
         (if nw.2 then [RenderEvent.noiseWrite] else []) ++ [RenderEvent.patternWrite])
      else
        ({ self with shineFilter := some u0, frameCount := fc }, false, [])

/-- Run the pattern layer for k frames starting at tick index i, feeding
per-frame delta times and camera states; counts pattern renders. -/
def patternRunF (dts : Nat → ℚ) (cams : Nat → CameraState) :
    ProceduralPatternLayer → Nat → Nat → ProceduralPatternLayer × Nat
  | self, _, 0 => (self, 0)
  | self, i, k + 1 =>
      let r := self.onAnimate (dts i) (cams i)
      let rest := patternRunF dts cams r.1 (i + 1) k
      (rest.1, (if r.2.1 then 1 else 0) + rest.2)

/- ============ scheduler skeleton (proof device for the run lemmas) ============ -/

/-- The scheduler fields of ProceduralPatternLayer in isolation. -/
structure PatternSchedState where
  frameCount : Nat
  needsUpdate : Bool
  updateFrequency : Nat
deriving DecidableEq

/-- Scheduler projection of the layer state. -/
def ProceduralPatternLayer.sched (self : ProceduralPatternLayer) : PatternSchedState :=
  ⟨self.frameCount, self.needsUpdate, self.updateFrequency⟩

/-- One scheduler step of _onAnimate (module.js:1789, 1794-1799, 1818):
the decision and flag evolution, stripped of the uniform updates. -/
def patternStep (s : PatternSchedState) : PatternSchedState × Bool :=
  let fc := s.frameCount + 1
  if s.needsUpdate ∨ (0 < s.updateFrequency ∧ fc % s.updateFrequency = 0) then
    ({ s with frameCount := fc, needsUpdate := false }, true)
  else
    ({ s with frameCount := fc }, false)

/-- Iterate patternStep, counting renders. -/
def patternRun : PatternSchedState → Nat → PatternSchedState × Nat
  | s, 0 => (s, 0)
  | s, k + 1 =>
      let r := patternStep s
      let rest := patternRun r.1 k
      (rest.1, (if r.2 then 1 else 0) + rest.2)

/-- Number of indices i with 1 ≤ i ≤ k and (c + i) % n = 0 (the scheduled
render ticks in a window of k frames starting after frame count c). -/
def countMult (c n : Nat) : Nat → Nat
  | 0 => 0
  | k + 1 => (if (c + 1) % n = 0 then 1 else 0) + countMult (c + 1) n k

/- ===================== spec-side definition (for C1) ===================== -/

/-- The DirtyState render predicate exactly as the spec words it
(spec.md section 3: a target is rendered this frame iff
forcedDirty || frameCounter % max(1,updateFrequency) == 0). Stated from
the spec, to be compared with the behaviour of patternStep / _onAnimate. -/
def specShouldRender (forcedDirty : Bool) (frameCounter updateFrequency : Nat) : Bool :=
  forcedDirty || decide (frameCounter % max 1 updateFrequency = 0)

/- ===================== sprite-map refresh machinery ===================== -/

/-- Association-list lookup for the sprite maps (JS Map.get by target id;
sprites are identified by stable numeric tokens). -/
def alLookup : List (String × Nat) → String → Option Nat
  | [], _ => none
  | (k, v) :: rest, id => if k = id then some v else alLookup rest id

/-- Membership test on a list of target ids (JS Set.has). -/
def memb : List String → String → Bool
  | [], _ => false
  | x :: rest, id => if x = id then true else memb rest id

/-- Phase 1 of the updateEffectTargets loops: for each bound id, reuse the
existing sprite if the map has one, otherwise create a fresh sprite and
add it (the `let sprite = map.get(id); if (!sprite) { sprite = new
PIXI.Sprite(...); map.set(id, sprite); container.addChild(sprite); }`
pattern). Fresh sprite identities are drawn from a counter. -/
def addMissing : List String → List (String × Nat) → Nat → List (String × Nat) × Nat
  | [], m, fresh => (m, fresh)
  | id :: rest, m, fresh =>
      match alLookup m id with
      | some _ => addMissing rest m fresh
      | none => addMissing rest (m ++ [(id, fresh)]) (fresh + 1)

/-- Phase 2 of the updateEffectTargets loops: every entry whose id is not
in the valid set is destroyed and deleted from the map (the
`for ([id, sprite] of map) if (!validTargetIds.has(id)) { sprite.destroy();
map.delete(id); }` pattern). Returns the surviving map and the identities
of the destroyed sprites. -/
def pruneStale (valid : List String) (m : List (String × Nat)) :
    List (String × Nat) × List Nat :=
  (m.filter (fun e => memb valid e.1),
   (m.filter (fun e => !(memb valid e.1))).map (fun e => e.2))

/-- The target set handed to updateEffectTargets, flattened: the
background entry plus one entry per tile, each with the relevant
per-effect texture path when discovery found one (outdoors for
CloudShadowsLayer, specular for MetallicShineLayer). -/
def boundIds (targets : List (String × Option String)) : List String :=
  (targets.filter (fun t => t.2.isSome)).map (fun t => t.1)

/- ===================== MetallicShineLayer ===================== -/

/-- Parameters written by MetallicShineLayer.updateFromConfig
(module.js:4505-4553): container blend modes and visibilities plus the
filter uniforms. The six filters are constructed together in one try
block (module.js:4384-4396) and are modelled as jointly present or
absent (filtersOk); the per-filter null guards collapse accordingly. -/
structure MetallicParams where
  shineBlendAdd : Bool
  bloomBlendMode : Nat
  bloomContainerVisible : Bool
  starburstContainerVisible : Bool
  starburstBlendMode : Nat
  uBoost : ℚ
  thresholdEnabled : Bool
  thresholdValue : ℚ
  blurEnabled : Bool
  blurStrength : ℚ
  blurQuality : ℚ
  bloomBrightness : ℚ
  chromaticEnabled : Bool
  chromaticAmount : ℚ
  sbEnabled : Bool
  sbThreshold : ℚ
  sbIntensity : ℚ
  sbAngleRad : ℚ
  sbPoints : Int
  sbSize : ℚ
  sbFalloff : ℚ
  sbTexelSize : ℚ × ℚ
deriving DecidableEq

/-- MetallicShineLayer state (module.js:4341-4361): visibility flags, the
filter group, the three per-target sprite maps and the fresh-sprite
counter, plus whether _onAnimate has bound the pattern texture into the
shine filter uniforms. -/
structure MetallicShineLayer where
  visible : Bool
  containerVisible : Bool
  filtersOk : Bool
  params : MetallicParams
  shineSprites : List (String × Nat)
  bloomSprites : List (String × Nat)
  starburstSprites : List (String × Nat)
  spriteFresh : Nat
  shinePatternBound : Bool
deriving DecidableEq

/-- MetallicShineLayer._onAnimate (module.js:4405-4412): returns
immediately unless the layer is visible and the shine filter exists;
otherwise binds the pattern layer texture into uShinePatternMap. -/
def MetallicShineLayer.onAnimate (self : MetallicShineLayer) : MetallicShineLayer :=
  if !self.visible || !self.filtersOk then self
  else { self with shinePatternBound := true }

/-- MetallicShineLayer.updateFromConfig (module.js:4505-4553): computes
visible = config.enabled && baseShine.enabled, mirrors it onto the
container, and returns early when not visible; otherwise writes the
container blend modes and visibilities and, when the filters exist, all
filter parameters. (The trailing ScreenEffectsManager call is outside the
modelled scope.) -/
def MetallicShineLayer.updateFromConfig (config : MapShineConfig)
    (self : MetallicShineLayer) : MetallicShineLayer :=
  let bs := config.baseShine
  let v := config.enabled && bs.enabled
  let self1 := { self with visible := v, containerVisible := v }
  if !v then self1
  else
    let bloom := bs.shineBloom
    let sb := bs.starburst
    let p1 := { self.params with
      shineBlendAdd := true,
      bloomBlendMode := bs.compositing.layerBlendMode,
      bloomContainerVisible := bloom.enabled,
      starburstContainerVisible := sb.enabled,
      starburstBlendMode := sb.blendMode }
    let p2 :=
      if self.filtersOk then
        { p1 with
          uBoost := bs.animation.globalIntensity,
          thresholdEnabled := bloom.enabled,
          thresholdValue := bloom.threshold,
          blurEnabled := bloom.enabled,
          blurStrength := bloom.blur,
          blurQuality := bloom.quality,
          bloomBrightness := bloom.brightness,
          chromaticEnabled := bloom.enabled && bs.rgbSplit.enabled,
          chromaticAmount := bs.rgbSplit.amount / 400,
          sbEnabled := sb.enabled,
          sbThreshold := sb.threshold,
          sbIntensity := sb.intensity,
          sbAngleRad := degToRad sb.angle,
          sbPoints := round sb.points,
          sbSize := sb.size,
          sbFalloff := sb.falloff }
      else p1
    { self1 with params := p2 }

/-- MetallicShineLayer.updateEffectTargets (module.js:4414-4483): a no-op
when the layer is not visible (line 4415); otherwise refreshes the three
sprite maps keyed by target id over the targets that declare a specular
texture, reusing present sprites, creating missing ones, and destroying
sprites of vanished ids. Returns the destroyed sprite identities. (The
source interleaves the three map updates per target; the phase order does
not affect the maps, only which counter value a new sprite receives.) -/
def MetallicShineLayer.updateEffectTargets (targets : List (String × Option String))
    (self : MetallicShineLayer) : MetallicShineLayer × List Nat :=
  if !self.visible then (self, [])
  else
    let bound := boundIds targets
    let a1 := addMissing bound self.shineSprites self.spriteFresh
    let a2 := addMissing bound self.bloomSprites a1.2
    let a3 := addMissing bound self.starburstSprites a2.2
    let r1 := pruneStale bound a1.1
    let r2 := pruneStale bound a2.1
    let r3 := pruneStale bound a3.1
    ({ self with shineSprites := r1.1, bloomSprites := r2.1,
                 starburstSprites := r3.1, spriteFresh := a3.2 },
     r1.2 ++ r2.2 ++ r3.2)

/-- MetallicShineLayer._onResize (module.js:4556-4564): refresh the effect
targets when the manager has them, and update the starburst texel size. -/
def MetallicShineLayer.onResize (w h : ℚ)
    (targets : Option (List (String × Option String)))
    (self : MetallicShineLayer) : MetallicShineLayer :=
  let s1 := match targets with
    | some ts => (self.updateEffectTargets ts).1
    | none => self
  if s1.filtersOk then
    { s1 with params := { s1.params with sbTexelSize := (1 / w, 1 / h) } }
  else s1

/- ===================== CloudShadowsLayer ===================== -/

/-- Which logical texture uOutdoorsMask is bound to. -/
inductive CloudMask where
  | empty
  | combined
  | blurred
deriving DecidableEq

/-- Render-target writes observable in one CloudShadowsLayer frame. -/
inductive CloudEvent where
  | combinedRender
  | blurRender
deriving DecidableEq

/-- Uniforms of CloudShadowsFilter written by updateFromConfig and
_onAnimate (module.js:4653-4698, 4763-4780). -/
structure CloudUniforms where
  uOutdoorsMask : CloudMask
  time : ℚ
  cameraOffset : ℚ × ℚ
  viewSize : ℚ × ℚ
  shadowIntensity : ℚ
  windDirection : ℚ × ℚ
  noiseScale : ℚ
  noiseOctaves : ℚ
  noisePersistence : ℚ
  noiseLacunarity : ℚ
  shadingThreshold : ℚ
  shadingSoftness : ℚ
  shadingBrightness : ℚ
  shadingContrast : ℚ
  shadingGamma : ℚ
deriving DecidableEq

/-- CloudShadowsLayer state (module.js:4583-4601 and _draw): the cloud
filter (null on compile failure), the mask blur filter settings, the
combined and blurred mask RenderTargets (tracked by their dimensions),
the per-target mask sprite map, and the effect sprite geometry. -/
structure CloudShadowsLayer where
  visible : Bool
  blendMode : Nat
  cloudFilter : Option CloudUniforms
  maskBlurRadius : ℚ
  maskBlurEnabled : Bool
  needsMaskUpdate : Bool
  maskSprites : List (String × Nat)
  spriteFresh : Nat
  combinedMaskDim : Nat × Nat
  blurredMaskDim : Nat × Nat
  effectSpritePos : ℚ × ℚ
  effectSpriteSize : ℚ × ℚ
deriving DecidableEq

/-- CloudShadowsLayer.updateFromConfig (module.js:4751-4783): sets
visible = config.enabled && cloudShadows.enabled, then returns when the
cloud filter is null; otherwise sets the blend mode, the mask blur
radius (maskBlur ?? 0) with enabled := blur > 0, writes the shader
uniforms (wind direction via Math.cos/Math.sin, abstracted by trig), and
unconditionally sets _needsMaskUpdate. -/
def CloudShadowsLayer.updateFromConfig (trig : TrigOracle) (config : MapShineConfig)
    (self : CloudShadowsLayer) : CloudShadowsLayer :=
  let cs := config.cloudShadows
  let v := config.enabled && cs.enabled
  match self.cloudFilter with
  | none => { self with visible := v }
  | some u =>
      let blur := cs.maskBlur.getD 0
      let windAngleRad := degToRad (cs.wind.angle.getD 45)
      let windSpeed := cs.wind.speed.getD (1 / 100)
      let u1 := { u with
        shadowIntensity := cs.shadowIntensity,
        windDirection := (trig.cos windAngleRad * windSpeed,
                          trig.sin windAngleRad * windSpeed),
        noiseScale := cs.noise.scale,
        noiseOctaves := cs.noise.octaves,
        noisePersistence := cs.noise.persistence,
        noiseLacunarity := cs.noise.lacunarity,
        shadingThreshold := cs.shading.threshold,
        shadingSoftness := cs.shading.softness,
        shadingBrightness := cs.shading.brightness,
        shadingContrast := cs.shading.contrast,
        shadingGamma := cs.shading.gamma }
      { self with visible := v, blendMode := cs.blendMode,
                  maskBlurRadius := blur,
                  maskBlurEnabled := decide (0 < blur),
                  cloudFilter := some u1,
                  needsMaskUpdate := true }

/-- CloudShadowsLayer._onAnimate (module.js:4653-4699). texturesValid
abstracts `some(s => s.texture.valid)` over the mask sprites (texture
loading is asynchronous and outside the pure model); hasActiveMasks is
that conjoined with a non-empty sprite map. When invisible, filterless or
maskless, uOutdoorsMask is reset to EMPTY and nothing renders. Otherwise,
when _needsMaskUpdate is set, the combined mask is rendered and, when the
blur filter is enabled, the blur pass renders the blurred mask; the
filter then samples the blurred mask iff the blur filter is enabled. -/
def CloudShadowsLayer.onAnimate (dt : ℚ) (cam : CameraState) (texturesValid : Bool)
    (self : CloudShadowsLayer) : CloudShadowsLayer × List CloudEvent :=
  let hasActiveMasks := decide (self.maskSprites ≠ []) && texturesValid
  match self.cloudFilter with
  | none => (self, [])
  | some u =>
      if !self.visible || !hasActiveMasks then
        ({ self with cloudFilter := some { u with uOutdoorsMask := CloudMask.empty } }, [])
      else
        let evs : List CloudEvent :=
          if self.needsMaskUpdate then
            CloudEvent.combinedRender ::
              (if self.maskBlurEnabled then [CloudEvent.blurRender] else [])
          else []
        let finalMask := if self.maskBlurEnabled then CloudMask.blurred else CloudMask.combined
        let u1 := { u with
          uOutdoorsMask := finalMask,
          time := u.time + dt,
          cameraOffset := cam.topLeft,
          viewSize := (cam.screenW / cam.scale, cam.screenH / cam.scale) }
        ({ self with cloudFilter := some u1,
                     needsMaskUpdate := false,
                     effectSpritePos := cam.topLeft,
                     effectSpriteSize := (cam.screenW / cam.scale, cam.screenH / cam.scale) },
         evs)

/-- CloudShadowsLayer.updateEffectTargets (module.js:4701-4732): refresh
the mask sprite map over the targets declaring an outdoors texture
(reuse by id, create missing, destroy vanished), then set
_needsMaskUpdate. Returns the destroyed sprite identities. -/
def CloudShadowsLayer.updateEffectTargets (targets : List (String × Option String))
    (self : CloudShadowsLayer) : CloudShadowsLayer × List Nat :=
  let bound := boundIds targets
  let a := addMissing bound self.maskSprites self.spriteFresh
  let r := pruneStale bound a.1
  ({ self with maskSprites := r.1, spriteFresh := a.2, needsMaskUpdate := true }, r.2)

/-- CloudShadowsLayer._onResize (module.js:4785-4805): re-stretch the
effect sprite, resize both mask RenderTargets to the new renderer screen
dimensions, refresh the effect targets when the manager has them, and set
_needsMaskUpdate. -/
def CloudShadowsLayer.onResize (w h : Nat) (cam : CameraState)
    (targets : Option (List (String × Option String)))
    (self : CloudShadowsLayer) : CloudShadowsLayer :=
  let s1 := { self with
    effectSpritePos := cam.topLeft,
    effectSpriteSize := (cam.screenW / cam.scale, cam.screenH / cam.scale),
    combinedMaskDim := (w, h),
    blurredMaskDim := (w, h) }
  let s2 := match targets with
    | some ts => (s1.updateEffectTargets ts).1
    | none => s1
  { s2 with needsMaskUpdate := true }

/- ===================== window-resize dispatch ===================== -/

/-- The layers of the pipeline the modelled claims range over, together
with the RenderTarget dimensions owned by the pattern layer (its
renderTexture, created at module.js:1660-1663) and by its noise manager
(created at module.js:3580-3584). -/
structure EffectsSystem where
  patternLayer : ProceduralPatternLayer
  patternTexDim : Nat × Nat
  noiseTexDim : Nat × Nat
  metallic : MetallicShineLayer
  cloud : CloudShadowsLayer
deriving DecidableEq

/-- The window resize notification: each layer that registered a resize
listener runs its handler. MetallicShineLayer (module.js:4401) and
CloudShadowsLayer (module.js:4642) registered listeners;
ProceduralPatternLayer registered none (module.js:1674-1678 adds only the
ticker callback and a canvasPan hook), so its renderTexture, its noise
texture and its _needsUpdate flag are untouched by a resize. -/
def EffectsSystem.onResize (w h : Nat) (cam : CameraState)
    (targets : Option (List (String × Option String)))
    (sys : EffectsSystem) : EffectsSystem :=
  { sys with
    metallic := sys.metallic.onResize (Nat.cast w) (Nat.cast h) targets,
    cloud := sys.cloud.onResize w h cam targets }

/- ===================== concrete sample data ===================== -/

/-- A concrete camera: identity pan, 800x600 screen, scale 1. -/
def camSample : CameraState :=
  { topLeft := (0, 0), screenW := 800, screenH := 600, scale := 1 }

/-- A concrete trig oracle (the claims never depend on its values). -/
def trigSample : TrigOracle :=
  { cos := fun _ => 1, sin := fun _ => 0 }

/-- A concrete configuration tree with every effect enabled, mirroring the
shape of OVERLAY_CONFIG defaults (baseShine.animation.updateFrequency 2,
cloud maskBlur present). -/
def cfgSample : MapShineConfig :=
  { enabled := true,
    baseShine :=
      { enabled := true,
        animation := { globalIntensity := 2, updateFrequency := 2 },
        pattern :=
          { shared := { maxBrightness := 1, patternScale := 1 },
            stripes1 :=
              { enabled := true, speed := 1, intensity := 1, angle := 45,
                sharpness := 2, bandDensity := 3, bandWidth := 1 / 2,
                subStripeMaxCount := 5, subStripeMaxSharp := 2 },
            stripes2 :=
              { enabled := false, speed := 2, intensity := 1 / 2, angle := 135,
                sharpness := 1, bandDensity := 2, bandWidth := 1 / 4,
                subStripeMaxCount := 3, subStripeMaxSharp := 1 } },
        noise :=
          { enabled := true, speed := 1, scale := 1, threshold := 1 / 2,
            brightness := 1, contrast := 1, softness := 1 / 10,
            evolution := some (1 / 2) },
        shineBloom :=
          { enabled := true, threshold := 1 / 2, blur := 4, quality := 4,
            brightness := 3 / 2 },
        rgbSplit := { enabled := false, amount := 2 },
        starburst :=
          { enabled := true, blendMode := 1, threshold := 3 / 4, intensity := 1,
            angle := 0, points := 4, size := 1, falloff := 1 },
        compositing := { layerBlendMode := 1 } },
    cloudShadows :=
      { enabled := true, blendMode := 2, maskBlur := some 2,
        shadowIntensity := 1 / 2,
        wind := { angle := some 45, speed := some (1 / 100) },
        noise := { scale := 1, octaves := 4, persistence := 1 / 2, lacunarity := 2 },
        shading := { threshold := 1 / 2, softness := 1 / 10, brightness := 1,
                     contrast := 1, gamma := 1 } } }

/-- cfgSample with the module and both modelled effects disabled. -/
def cfgAllOff : MapShineConfig :=
  { cfgSample with
    enabled := false,
    baseShine := { cfgSample.baseShine with enabled := false },
    cloudShadows := { cfgSample.cloudShadows with enabled := false } }

/-- cfgSample with cloud maskBlur set to 0 (radius not positive). -/
def cfgBlurOff : MapShineConfig :=
  { cfgSample with
    cloudShadows := { cfgSample.cloudShadows with maskBlur := some 0 } }

/-- Pattern uniforms as compiled at draw time from cfgSample. -/
def defPatternUniforms : PatternUniforms :=
  initialPatternUniforms 800 600 1 cfgSample.baseShine

/-- A pattern layer whose filters compiled, with the default throttle of
updateFrequency 1 set in the constructor (module.js:1644). -/
def patternSample : ProceduralPatternLayer :=
  { shineFilter := some defPatternUniforms,
    noiseManager := some initNoiseUniforms,
    updateFrequency := 1, frameCount := 0, needsUpdate := false }

/-- A pattern layer after a failed ShinePatternFilter compilation: the
filter slot is null for the rest of the session. -/
def failedPatternLayer : ProceduralPatternLayer :=
  { shineFilter := none, noiseManager := none, updateFrequency := 1,
    frameCount := 0, needsUpdate := true }

/-- Metallic parameters at construction (all zero/none; every field is
assigned from the configuration before use). -/
def defMetallicParams : MetallicParams :=
  { shineBlendAdd := false, bloomBlendMode := 0, bloomContainerVisible := true,
    starburstContainerVisible := true, starburstBlendMode := 0, uBoost := 2,
    thresholdEnabled := true, thresholdValue := 1 / 2, blurEnabled := true,
    blurStrength := 4, blurQuality := 4, bloomBrightness := 1,
    chromaticEnabled := false, chromaticAmount := 0, sbEnabled := true,
    sbThreshold := 3 / 4, sbIntensity := 1, sbAngleRad := 0, sbPoints := 4,
    sbSize := 1, sbFalloff := 1, sbTexelSize := (1 / 800, 1 / 600) }

/-- A metallic layer with one sprite per map for target id T1. -/
def metallicSample : MetallicShineLayer :=
  { visible := false, containerVisible := false, filtersOk := true,
    params := defMetallicParams,
    shineSprites := [("T1", 1)], bloomSprites := [("T1", 2)],
    starburstSprites := [("T1", 3)], spriteFresh := 4,
    shinePatternBound := false }

/-- Cloud filter uniforms at construction. -/
def defCloudUniforms : CloudUniforms :=
  { uOutdoorsMask := CloudMask.empty, time := 0, cameraOffset := (0, 0),
    viewSize := (0, 0), shadowIntensity := 0, windDirection := (0, 0),
    noiseScale := 0, noiseOctaves := 0, noisePersistence := 0,
    noiseLacunarity := 0, shadingThreshold := 0, shadingSoftness := 0,
    shadingBrightness := 0, shadingContrast := 0, shadingGamma := 0 }

/-- A cloud layer whose filter compiled, with one mask sprite for T1. -/
def cloudSample : CloudShadowsLayer :=
  { visible := true, blendMode := 0, cloudFilter := some defCloudUniforms,
    maskBlurRadius := 0, maskBlurEnabled := false, needsMaskUpdate := true,
    maskSprites := [("T1", 7)], spriteFresh := 8,
    combinedMaskDim := (800, 600), blurredMaskDim := (800, 600),
    effectSpritePos := (0, 0), effectSpriteSize := (800, 600) }

/-- A whole pipeline state at an 800x600 viewport. -/
def sysSample : EffectsSystem :=
  { patternLayer := patternSample, patternTexDim := (800, 600),
    noiseTexDim := (800, 600), metallic := metallicSample, cloud := cloudSample }

/-- A target list: the background with an outdoors/specular texture, and
tile T1 with none discovered (so T1 is no longer bound). -/
def targetsSample : List (String × Option String) :=
  [("background", some "maps/bg_outdoors.webp"), ("T1", none)]


/- ===================== scheduler lemmas ===================== -/

/-- The positivity guard in isNthFrame adds nothing at a positive frame
count: frameCount % 0 = frameCount, which is never 0 there. -/
theorem schedCond_iff (n c : Nat) :
    (0 < n ∧ (c + 1) % n = 0) ↔ (c + 1) % n = 0 := by
  constructor
  · exact fun h => h.2
  · intro h
    rcases Nat.eq_zero_or_pos n with h0 | hpos
    · subst h0
      simp [Nat.mod_zero] at h
    · exact ⟨hpos, h⟩

/-- Closed form for countMult: the scheduled ticks in the window (c, c+k]
are exactly the multiples of n in that interval. -/
theorem countMult_closed (n : Nat) :
    ∀ k c, countMult c n k = (c + k) / n - c / n := by
  intro k
  induction k with
  | zero => intro c; simp [countMult]
  | succ k ih =>
      intro c
      have hrec : countMult c n (k + 1)
          = (if (c + 1) % n = 0 then 1 else 0) + countMult (c + 1) n k := rfl
      rw [hrec, ih (c + 1)]
      have hdiv : (c + 1) / n = c / n + if n ∣ (c + 1) then 1 else 0 := Nat.succ_div c n
      have hmono2 : (c + 1) / n ≤ (c + 1 + k) / n :=
        Nat.div_le_div_right (Nat.le_add_right (c + 1) k)
      have harr : c + 1 + k = c + (k + 1) := by omega
      rw [harr] at hmono2
      rw [harr]
      by_cases hd : n ∣ (c + 1)
      · have hm : (c + 1) % n = 0 := Nat.mod_eq_zero_of_dvd hd
        rw [if_pos hd] at hdiv
        rw [if_pos hm]
        generalize hA : c / n = A at hdiv ⊢
        generalize hB : (c + 1) / n = B at hdiv hmono2 ⊢
        generalize hD : (c + (k + 1)) / n = D at hmono2 ⊢
        omega
      · have hm : ¬((c + 1) % n = 0) := fun h => hd (Nat.dvd_of_mod_eq_zero h)
        rw [if_neg hd] at hdiv
        rw [if_neg hm]
        generalize hA : c / n = A at hdiv ⊢
        generalize hB : (c + 1) / n = B at hdiv hmono2 ⊢
        generalize hD : (c + (k + 1)) / n = D at hmono2 ⊢
        omega

/-- A clean scheduler (needsUpdate false) renders exactly on the
scheduled ticks: the run count over k frames is countMult. -/
theorem patternRun_clean (n : Nat) :
    ∀ k c, (patternRun ⟨c, false, n⟩ k).2 = countMult c n k := by
  intro k
  induction k with
  | zero => intro c; rfl
  | succ k ih =>
      intro c
      show (if (patternStep ⟨c, false, n⟩).2 then 1 else 0)
            + (patternRun (patternStep ⟨c, false, n⟩).1 k).2
          = (if (c + 1) % n = 0 then 1 else 0) + countMult (c + 1) n k
      by_cases h : (c + 1) % n = 0
      · have hs : patternStep ⟨c, false, n⟩ = (⟨c + 1, false, n⟩, true) := by
          have hcond := (schedCond_iff n c).mpr h
          simp [patternStep, hcond]
        rw [hs, if_pos h]
        simp [ih (c + 1)]
      · have hs : patternStep ⟨c, false, n⟩ = (⟨c + 1, false, n⟩, false) := by
          have hcond : ¬(0 < n ∧ (c + 1) % n = 0) :=
            fun hc => h ((schedCond_iff n c).mp hc)
          simp [patternStep, hcond]
        rw [hs, if_neg h]
        simp [ih (c + 1)]

/-- A dirty scheduler renders on the first frame (clearing the flag) and
then on the scheduled ticks. -/
theorem patternRun_dirty (n k c : Nat) :
    (patternRun ⟨c, true, n⟩ (k + 1)).2 = 1 + countMult (c + 1) n k := by
  have hs : patternStep ⟨c, true, n⟩ = (⟨c + 1, false, n⟩, true) := by
    simp [patternStep]
  show (if (patternStep ⟨c, true, n⟩).2 then 1 else 0)
        + (patternRun (patternStep ⟨c, true, n⟩).1 k).2
      = 1 + countMult (c + 1) n k
  rw [hs]
  simp [patternRun_clean]

/-- Over any window of 2n consecutive frames with no external
invalidation, a scheduler with positive frequency n renders at least 2
and at most 3 times, whatever its phase and incoming dirty flag. -/
theorem patternRun_window (n c : Nat) (d : Bool) (hn : 0 < n) :
    2 ≤ (patternRun ⟨c, d, n⟩ (2 * n)).2 ∧ (patternRun ⟨c, d, n⟩ (2 * n)).2 ≤ 3 := by
  have htwo : (c + 2 * n) / n = c / n + 2 := Nat.add_mul_div_right c 2 hn
  cases d with
  | false =>
      rw [patternRun_clean, countMult_closed n, htwo]
      generalize c / n = A
      omega
  | true =>
      have h2n : 2 * n = (2 * n - 1) + 1 := by omega
      rw [h2n, patternRun_dirty, countMult_closed n]
      have harr : c + 1 + (2 * n - 1) = c + 2 * n := by omega
      rw [harr, htwo]
      have h4 : c / n ≤ (c + 1) / n := Nat.div_le_div_right (Nat.le_succ c)
      have h5 : (c + 1) / n ≤ c / n + 1 := by
        have h7 : (c + 1) / n ≤ (c + n) / n := Nat.div_le_div_right (by omega)
        have h8 : (c + n) / n = c / n + 1 := Nat.add_div_right c hn
        generalize c / n = A at h8 ⊢
        generalize (c + 1) / n = B at h7 ⊢
        generalize (c + n) / n = C at h7 h8
        omega
      generalize hA : c / n = A at h4 h5 ⊢
      generalize hB : (c + 1) / n = B at h4 h5 ⊢
      omega

/-- One _onAnimate call of a layer with a live shine filter tracks the
scheduler skeleton patternStep, and the filter stays live. -/
theorem onAnimate_sched (dt : ℚ) (cam : CameraState) (self : ProceduralPatternLayer)
    (hf : self.shineFilter.isSome = true) :
    ((self.onAnimate dt cam).1).sched = (patternStep self.sched).1 ∧
      (self.onAnimate dt cam).2.1 = (patternStep self.sched).2 ∧
      ((self.onAnimate dt cam).1).shineFilter.isSome = true := by
  rcases h : self.shineFilter with _ | u
  · rw [h] at hf
    simp at hf
  · by_cases hcond : (self.needsUpdate = true)
        ∨ (0 < self.updateFrequency ∧ (self.frameCount + 1) % self.updateFrequency = 0)
    · simp [ProceduralPatternLayer.onAnimate, ProceduralPatternLayer.sched,
        patternStep, h, hcond]
    · simp [ProceduralPatternLayer.onAnimate, ProceduralPatternLayer.sched,
        patternStep, h, hcond]

/-- The full-machine run count equals the scheduler-skeleton run count
whenever the shine filter is live. -/
theorem patternRunF_sched (dts : Nat → ℚ) (cams : Nat → CameraState) :
    ∀ k (self : ProceduralPatternLayer) i, self.shineFilter.isSome = true →
      (patternRunF dts cams self i k).2 = (patternRun self.sched k).2 := by
  intro k
  induction k with
  | zero => intro self i _; rfl
  | succ k ih =>
      intro self i hf
      obtain ⟨h1, h2, h3⟩ := onAnimate_sched (dts i) (cams i) self hf
      show (if (self.onAnimate (dts i) (cams i)).2.1 then 1 else 0)
            + (patternRunF dts cams (self.onAnimate (dts i) (cams i)).1 (i + 1) k).2
          = (if (patternStep self.sched).2 then 1 else 0)
            + (patternRun (patternStep self.sched).1 k).2
      rw [h2, ih _ _ h3, h1]

/- ===================== sprite-map lemmas ===================== -/

/-- Appending an entry for a different or shadowed key does not change an
existing lookup. -/
theorem alLookup_append_of_isSome (xs : List (String × Nat)) (e : String × Nat)
    (id : String) (v : Nat) (h : alLookup xs id = some v) :
    alLookup (xs ++ [e]) id = some v := by
  induction xs with
  | nil => simp [alLookup] at h
  | cons x rest ih =>
      by_cases hk : x.1 = id
      · simp only [alLookup, List.cons_append, hk, if_pos] at h ⊢
        exact h
      · simp only [alLookup, List.cons_append, hk, if_neg, not_false_iff] at h ⊢
        exact ih h

/-- Looking up the key of an entry appended to a map that lacks it finds
that entry. -/
theorem alLookup_append_self (xs : List (String × Nat)) (id : String) (v : Nat)
    (h : alLookup xs id = none) : alLookup (xs ++ [(id, v)]) id = some v := by
  induction xs with
  | nil => simp [alLookup]
  | cons x rest ih =>
      by_cases hk : x.1 = id
      · simp only [alLookup, hk, if_pos] at h
        exact absurd h (by simp)
      · simp only [alLookup, List.cons_append, hk, if_neg, not_false_iff] at h ⊢
        exact ih h

/-- addMissing never disturbs an existing binding. -/
theorem addMissing_lookup_mono (id : String) (v : Nat) :
    ∀ (bound : List String) (m : List (String × Nat)) (fresh : Nat),
      alLookup m id = some v → alLookup (addMissing bound m fresh).1 id = some v := by
  intro bound
  induction bound with
  | nil => intro m fresh h; exact h
  | cons b rest ih =>
      intro m fresh h
      show alLookup (match alLookup m b with
        | some _ => addMissing rest m fresh
        | none => addMissing rest (m ++ [(b, fresh)]) (fresh + 1)).1 id = some v
      rcases hb : alLookup m b with _ | w
      · exact ih _ _ (alLookup_append_of_isSome m (b, fresh) id v h)
      · exact ih _ _ h

/-- After addMissing, every bound id has a binding. -/
theorem addMissing_lookup_isSome (id : String) :
    ∀ (bound : List String) (m : List (String × Nat)) (fresh : Nat),
      memb bound id = true → ((alLookup (addMissing bound m fresh).1 id).isSome = true) := by
  intro bound
  induction bound with
  | nil => intro m fresh h; simp [memb] at h
  | cons b rest ih =>
      intro m fresh h
      show ((alLookup (match alLookup m b with
        | some _ => addMissing rest m fresh
        | none => addMissing rest (m ++ [(b, fresh)]) (fresh + 1)).1 id).isSome = true)
      by_cases hid : b = id
      · subst hid
        rcases hb : alLookup m b with _ | w
        · have hsome := alLookup_append_self m b fresh hb
          have := addMissing_lookup_mono b fresh rest (m ++ [(b, fresh)]) (fresh + 1) hsome
          rw [this]
          rfl
        · have := addMissing_lookup_mono b w rest m fresh hb
          rw [this]
          rfl
      · have hrest : memb rest id = true := by
          simp only [memb, hid, if_neg, not_false_iff] at h
          exact h
        rcases hb : alLookup m b with _ | w
        · exact ih _ _ hrest
        · exact ih _ _ hrest

/-- addMissing only appends entries. -/
theorem addMissing_extends :
    ∀ (bound : List String) (m : List (String × Nat)) (fresh : Nat),
      ∃ ext, (addMissing bound m fresh).1 = m ++ ext := by
  intro bound
  induction bound with
  | nil => intro m fresh; exact ⟨[], by simp [addMissing]⟩
  | cons b rest ih =>
      intro m fresh
      show ∃ ext, (match alLookup m b with
        | some _ => addMissing rest m fresh
        | none => addMissing rest (m ++ [(b, fresh)]) (fresh + 1)).1 = m ++ ext
      rcases hb : alLookup m b with _ | w
      · obtain ⟨ext, hext⟩ := ih (m ++ [(b, fresh)]) (fresh + 1)
        exact ⟨(b, fresh) :: ext, by rw [hext]; simp⟩
      · exact ih m fresh

/-- Lookup in the pruned map: a valid id keeps its binding, an invalid id
has none. -/
theorem pruneStale_lookup (valid : List String) (id : String) :
    ∀ m : List (String × Nat),
      alLookup (pruneStale valid m).1 id
        = if memb valid id = true then alLookup m id else none := by
  intro m
  induction m with
  | nil => simp [pruneStale, alLookup]
  | cons e rest ih =>
      simp only [pruneStale] at ih ⊢
      by_cases hkeep : memb valid e.1 = true
      · rw [List.filter_cons_of_pos (by simpa using hkeep)]
        by_cases hid : e.1 = id
        · subst hid
          simp only [alLookup, if_pos, hkeep, if_true]
        · simp only [alLookup, hid, if_neg, not_false_iff]
          exact ih
      · rw [List.filter_cons_of_neg (by simpa using hkeep)]
        by_cases hid : e.1 = id
        · subst hid
          rw [ih]
          simp only [hkeep]
          simp
        · rw [ih]
          by_cases hv : memb valid id = true
          · simp only [hv, if_true, alLookup, hid, if_neg, not_false_iff]
          · simp only [hv, if_false]
            simp

/-- Every entry with an invalid id ends up destroyed by pruneStale. -/
theorem pruneStale_destroyed (valid : List String) (m : List (String × Nat))
    (id : String) (v : Nat) (hmem : (id, v) ∈ m) (hinv : memb valid id = false) :
    v ∈ (pruneStale valid m).2 := by
  simp only [pruneStale, List.mem_map]
  refine ⟨(id, v), ?_, rfl⟩
  rw [List.mem_filter]
  exact ⟨hmem, by simp [hinv]⟩

/-- A successful lookup comes from an entry of the map. -/
theorem alLookup_mem : ∀ (m : List (String × Nat)) (id : String) (v : Nat),
    alLookup m id = some v → (id, v) ∈ m := by
  intro m
  induction m with
  | nil => intro id v h; simp [alLookup] at h
  | cons e rest ih =>
      intro id v h
      obtain ⟨k, w⟩ := e
      by_cases hk : k = id
      · subst hk
        simp only [alLookup, if_pos] at h
        injection h with h2
        subst h2
        exact List.mem_cons_self _ _
      · simp only [alLookup, hk, if_neg, not_false_iff] at h
        exact List.mem_cons_of_mem _ (ih id v h)

/- ===================== auxiliary lemmas for the claims ===================== -/

/-- A layer whose shine filter is null never changes and never renders:
_onAnimate returns before touching any state. -/
theorem patternRunF_none (dts : Nat → ℚ) (cams : Nat → CameraState) :
    ∀ k (self : ProceduralPatternLayer) i, self.shineFilter = none →
      patternRunF dts cams self i k = (self, 0) := by
  intro k
  induction k with
  | zero => intro self i _; rfl
  | succ k ih =>
      intro self i h
      have hstep : self.onAnimate (dts i) (cams i) = (self, false, []) := by
        simp [ProceduralPatternLayer.onAnimate, h]
      show ((patternRunF dts cams (self.onAnimate (dts i) (cams i)).1 (i + 1) k).1,
            (if (self.onAnimate (dts i) (cams i)).2.1 then 1 else 0)
              + (patternRunF dts cams (self.onAnimate (dts i) (cams i)).1 (i + 1) k).2)
          = (self, 0)
      rw [hstep]
      simp [ih self (i + 1) h]

/-- Writing the same uniform values twice is the same as writing them
once. -/
theorem patternUniformsOfConfig_idem (bs : BaseShineConfig) (u : PatternUniforms) :
    patternUniformsOfConfig bs (patternUniformsOfConfig bs u)
      = patternUniformsOfConfig bs u := rfl

/-- NoiseTextureManager.updateFromConfig is idempotent: the lazily
compiled filter (or its absence, on compile failure) is stable, and the
uniform writes are functions of the configuration alone. -/
theorem noiseUpdateFromConfig_idem (cOk : Bool) (n : NoiseConfig) :
    ∀ f : Option NoiseUniforms,
      NoiseTextureManager.updateFromConfig cOk n
          (NoiseTextureManager.updateFromConfig cOk n f)
        = NoiseTextureManager.updateFromConfig cOk n f := by
  intro f
  cases cOk <;> cases f <;> rfl

/-- The stored updateFrequency stabilises after one application of the
clamp-on-change rule at module.js:1750-1752. -/
theorem freqClamp_idem (f0 : Nat) (c : Int) :
    (if Int.ofNat (if Int.ofNat f0 ≠ c then (max 0 c).toNat else f0) ≠ c
       then (max 0 c).toNat
       else (if Int.ofNat f0 ≠ c then (max 0 c).toNat else f0))
    = (if Int.ofNat f0 ≠ c then (max 0 c).toNat else f0) := by
  by_cases h : Int.ofNat f0 ≠ c
  · rw [if_pos h]
    split <;> rfl
  · rw [if_neg h, if_neg h]

/- ===================== the claims ===================== -/

/-- Claim C1 (code-bug evidence). The spec formula (and the in-code
slider tooltip at module.js:5959, which reads "0 = every frame") says a
pass with updateFrequency 0 renders every frame: specShouldRender is
true at frequency 0 whatever the counter. The code (module.js:1794)
requires updateFrequency > 0 for a scheduled render, so a clean layer
with frequency 0 does not render on an ordinary frame. For frequencies
N >= 1 the two agree; the divergence is exactly at 0. -/
theorem c1_updateFrequencyZero_divergence :
    (ProceduralPatternLayer.onAnimate 1 camSample
        ⟨some defPatternUniforms, some initNoiseUniforms, 0, 0, false⟩).2.1 = false
    ∧ specShouldRender false 1 0 = true := by
  exact ⟨rfl, rfl⟩

/-- Claim C5: for a live stage with updateFrequency N > 0, over any
window of 2N consecutive frames with no external invalidation (the run
calls only _onAnimate: no pan, resize or configuration change), the
stage renders at least 2 and at most 3 times, whatever the frame-count
phase, the incoming dirty flag, and the per-frame delta times and camera
states. -/
theorem c5_throttling_window (N : Nat) (hN : 0 < N) (c : Nat) (d : Bool)
    (u : PatternUniforms) (nm : Option NoiseUniforms)
    (dts : Nat → ℚ) (cams : Nat → CameraState) (i : Nat) :
    2 ≤ (patternRunF dts cams ⟨some u, nm, N, c, d⟩ i (2 * N)).2 ∧
      (patternRunF dts cams ⟨some u, nm, N, c, d⟩ i (2 * N)).2 ≤ 3 := by
  have h := patternRunF_sched dts cams (2 * N) ⟨some u, nm, N, c, d⟩ i rfl
  rw [h]
  exact patternRun_window N c d hN

/-- Witness for C5 at N = 1 over a 2-frame window. -/
theorem c5_throttling_window_witness :
    0 < 1 ∧
      (2 ≤ (patternRunF (fun _ => (1 : ℚ)) (fun _ => camSample)
              ⟨some defPatternUniforms, some initNoiseUniforms, 1, 0, false⟩ 0 (2 * 1)).2 ∧
       (patternRunF (fun _ => (1 : ℚ)) (fun _ => camSample)
              ⟨some defPatternUniforms, some initNoiseUniforms, 1, 0, false⟩ 0 (2 * 1)).2 ≤ 3) :=
  ⟨Nat.one_pos,
   c5_throttling_window 1 Nat.one_pos 0 false defPatternUniforms
     (some initNoiseUniforms) (fun _ => 1) (fun _ => camSample) 0⟩

/-- Claim C6: in any frame in which the pattern stage renders and the
noise filter is operational, the noise RenderTarget write strictly
precedes the pattern RenderTarget write: the ordered event list of
_onAnimate is exactly [noiseWrite, patternWrite] (module.js:1802 runs the
noise update before the render at 1813, and 1809 binds the freshly
written texture). -/
theorem c6_noiseBeforePattern (dt : ℚ) (cam : CameraState)
    (self : ProceduralPatternLayer)
    (hn : self.noiseManager.isSome = true)
    (hr : RenderEvent.patternWrite ∈ (self.onAnimate dt cam).2.2) :
    (self.onAnimate dt cam).2.2 = [RenderEvent.noiseWrite, RenderEvent.patternWrite] := by
  rcases hf : self.shineFilter with _ | u
  · simp [ProceduralPatternLayer.onAnimate, hf] at hr
  · rcases hnm : self.noiseManager with _ | nmu
    · rw [hnm] at hn
      simp at hn
    · by_cases hcond : (self.needsUpdate = true)
          ∨ (0 < self.updateFrequency ∧ (self.frameCount + 1) % self.updateFrequency = 0)
      · simp [ProceduralPatternLayer.onAnimate, NoiseTextureManager.update, hf, hnm, hcond]
      · simp [ProceduralPatternLayer.onAnimate, hf, hcond] at hr

/-- Witness for C6: a frame of the sample layer (frequency 1) that
renders. -/
theorem c6_noiseBeforePattern_witness :
    (patternSample.onAnimate 1 camSample).2.2
      = [RenderEvent.noiseWrite, RenderEvent.patternWrite] :=
  c6_noiseBeforePattern 1 camSample patternSample rfl (by decide)

/-- Claim C7: a shader compile failure at construction is caught: the
filter slot stays null and a structured error report
{state: error, message} is produced (the embedding of the catch branch is
a total function, so no exception escapes to any consumer); a layer with
a null shine filter is permanently inert for the session: any number of
frames leaves the state untouched with zero renders (its RenderTarget is
never written, so it stays transparent), and configuration updates return
immediately without resurrecting it. -/
theorem c7_shaderCompileFailure (msg : String) (screenW screenH canvasScale : ℚ)
    (bs : BaseShineConfig) :
    (ProceduralPatternLayer.setupFilters (Except.error msg) screenW screenH canvasScale bs).1
        = none ∧
    (ProceduralPatternLayer.setupFilters (Except.error msg) screenW screenH canvasScale bs).2
        = { state := StatusState.error, message := "Compilation failed: " ++ msg } ∧
    (∀ self : ProceduralPatternLayer, self.shineFilter = none →
      (∀ (dts : Nat → ℚ) (cams : Nat → CameraState) (i k : Nat),
          patternRunF dts cams self i k = (self, 0)) ∧
      (∀ (cOk : Bool) (cfg : MapShineConfig), self.updateFromConfig cOk cfg = self)) := by
  refine ⟨rfl, rfl, ?_⟩
  intro self hnone
  constructor
  · intro dts cams i k
    exact patternRunF_none dts cams k self i hnone
  · intro cOk cfg
    simp [ProceduralPatternLayer.updateFromConfig, hnone]

/-- Witness for C7: the failed layer is inert over 5 frames and under a
configuration update. -/
theorem c7_shaderCompileFailure_witness :
    failedPatternLayer.shineFilter = none ∧
    patternRunF (fun _ => 1) (fun _ => camSample) failedPatternLayer 0 5
        = (failedPatternLayer, 0) ∧
    failedPatternLayer.updateFromConfig true cfgSample = failedPatternLayer :=
  ⟨rfl,
   ((c7_shaderCompileFailure "boom" 800 600 1 cfgSample.baseShine).2.2
       failedPatternLayer rfl).1 (fun _ => 1) (fun _ => camSample) 0 5,
   ((c7_shaderCompileFailure "boom" 800 600 1 cfgSample.baseShine).2.2
       failedPatternLayer rfl).2 true cfgSample⟩

/-- Claim C2 (counterexample). After one application of a configuration
and the forced frame it triggers (which renders and clears the dirty
flag), re-applying the identical configuration sets the dirty flag
again: updateFromConfig ends with an unconditional _needsUpdate = true
(module.js:1779), so the second application does request a further
forced re-render, contradicting the claim that it marks nothing dirty. -/
theorem c2_reapplyConfig_counterexample :
    (((patternSample.updateFromConfig true cfgSample).onAnimate 1 camSample).1).needsUpdate
        = false ∧
    (((((patternSample.updateFromConfig true cfgSample).onAnimate 1 camSample).1)).updateFromConfig
        true cfgSample).needsUpdate = true := by
  exact ⟨rfl, rfl⟩

/-- Claim C2 (amended): applying an unchanged configuration twice is
idempotent on the whole parameter state (the second application of
ProceduralPatternLayer.updateFromConfig returns exactly the state the
first one produced: same uniforms, same noise manager state, same stored
frequency), but it is not free of dirty marking: every application of
updateFromConfig with a live filter leaves the scheduler marked dirty
(_needsUpdate true, and _needsMaskUpdate true for CloudShadowsLayer), so
a second application after an intervening render forces one more
re-render than a diff-based engine would. -/
theorem c2_reapplyConfig_amended (cOk : Bool) (cfg : MapShineConfig)
    (ps : ProceduralPatternLayer) (trig : TrigOracle) (cs : CloudShadowsLayer)
    (dt : ℚ) (cam : CameraState) :
    (ps.updateFromConfig cOk cfg).updateFromConfig cOk cfg
        = ps.updateFromConfig cOk cfg ∧
    (ps.shineFilter.isSome = true →
        (ps.updateFromConfig cOk cfg).needsUpdate = true ∧
        ((((ps.updateFromConfig cOk cfg).onAnimate dt cam).1).updateFromConfig cOk cfg).needsUpdate
            = true) ∧
    (cs.cloudFilter.isSome = true →
        (cs.updateFromConfig trig cfg).needsMaskUpdate = true) := by
  obtain ⟨sf, nm0, f0, fc0, nu0⟩ := ps
  refine ⟨?_, ?_, ?_⟩
  · rcases sf with _ | u
    · rfl
    · simp only [ProceduralPatternLayer.updateFromConfig]
      simp only [ProceduralPatternLayer.mk.injEq]
      refine ⟨by trivial, noiseUpdateFromConfig_idem cOk cfg.baseShine.noise nm0,
        freqClamp_idem f0 cfg.baseShine.animation.updateFrequency, by trivial, by trivial⟩
  · intro hs
    rcases sf with _ | u
    · simp at hs
    · constructor
      · rfl
      · simp only [ProceduralPatternLayer.updateFromConfig, ProceduralPatternLayer.onAnimate]
        simp
  · intro hc
    rcases hcf : cs.cloudFilter with _ | u
    · rw [hcf] at hc
      simp at hc
    · simp [CloudShadowsLayer.updateFromConfig, hcf]

/-- Witness for C2 (amended) at the sample layer and configuration. -/
theorem c2_reapplyConfig_amended_witness :
    (patternSample.updateFromConfig true cfgSample).updateFromConfig true cfgSample
        = patternSample.updateFromConfig true cfgSample ∧
    (patternSample.updateFromConfig true cfgSample).needsUpdate = true ∧
    (cloudSample.updateFromConfig trigSample cfgSample).needsMaskUpdate = true :=
  ⟨(c2_reapplyConfig_amended true cfgSample patternSample trigSample cloudSample 1 camSample).1,
   ((c2_reapplyConfig_amended true cfgSample patternSample trigSample cloudSample 1 camSample).2.1 rfl).1,
   (c2_reapplyConfig_amended true cfgSample patternSample trigSample cloudSample 1 camSample).2.2 rfl⟩

/-- Claim C3 (counterexample). Applying a configuration with the module
and every effect disabled does not stop the pattern stage:
ProceduralPatternLayer.updateFromConfig reads no enabled flag and
_onAnimate has no enabled gate, so on the very next frame the stage
still writes its RenderTarget, contradicting the claim that every
stage with enabled=false stops writing its target after one frame. -/
theorem c3_disabledStage_counterexample :
    ((patternSample.updateFromConfig true cfgAllOff).onAnimate 1 camSample).2.1 = true := by
  rfl

/-- Claim C3 (amended): for the compositing stages the claim holds:
setting the enabled flags false makes MetallicShineLayer invisible with
its container visibility toggled off and turns its per-frame step into a
no-op, and makes CloudShadowsLayer perform no mask render on the next
frame; but the upstream ProceduralPatternLayer ignores the enabled flag
entirely and (its filter being live) still writes its RenderTarget on
the frame after the configuration change. -/
theorem c3_disabledStage_amended (cfg : MapShineConfig) (ms : MetallicShineLayer)
    (cs : CloudShadowsLayer) (ps : ProceduralPatternLayer) (trig : TrigOracle)
    (dt : ℚ) (cam : CameraState) (tv : Bool) (cOk : Bool)
    (hms : (cfg.enabled && cfg.baseShine.enabled) = false)
    (hcs : (cfg.enabled && cfg.cloudShadows.enabled) = false)
    (hp : ps.shineFilter.isSome = true) :
    (ms.updateFromConfig cfg).visible = false ∧
    (ms.updateFromConfig cfg).containerVisible = false ∧
    (ms.updateFromConfig cfg).onAnimate = ms.updateFromConfig cfg ∧
    ((cs.updateFromConfig trig cfg).onAnimate dt cam tv).2 = [] ∧
    ((ps.updateFromConfig cOk cfg).onAnimate dt cam).2.1 = true := by
  have hmv : (ms.updateFromConfig cfg).visible = false := by
    simp [MetallicShineLayer.updateFromConfig, hms]
  refine ⟨hmv, ?_, ?_, ?_, ?_⟩
  · simp [MetallicShineLayer.updateFromConfig, hms]
  · simp [MetallicShineLayer.onAnimate, hmv]
  · rcases hcf : cs.cloudFilter with _ | u
    · simp [CloudShadowsLayer.updateFromConfig, CloudShadowsLayer.onAnimate, hcf, hcs]
    · simp [CloudShadowsLayer.updateFromConfig, CloudShadowsLayer.onAnimate, hcf, hcs]
  · rcases hsf : ps.shineFilter with _ | u
    · rw [hsf] at hp
      simp at hp
    · simp [ProceduralPatternLayer.updateFromConfig, ProceduralPatternLayer.onAnimate, hsf]

/-- Witness for C3 (amended) at the sample layers and the all-off
configuration. -/
theorem c3_disabledStage_amended_witness :
    (metallicSample.updateFromConfig cfgAllOff).visible = false ∧
    ((cloudSample.updateFromConfig trigSample cfgAllOff).onAnimate 1 camSample true).2 = [] ∧
    ((patternSample.updateFromConfig true cfgAllOff).onAnimate 1 camSample).2.1 = true :=
  ⟨(c3_disabledStage_amended cfgAllOff metallicSample cloudSample patternSample trigSample
      1 camSample true true rfl rfl rfl).1,
   (c3_disabledStage_amended cfgAllOff metallicSample cloudSample patternSample trigSample
      1 camSample true true rfl rfl rfl).2.2.2.1,
   (c3_disabledStage_amended cfgAllOff metallicSample cloudSample patternSample trigSample
      1 camSample true true rfl rfl rfl).2.2.2.2⟩

/-- Claim C4 (counterexample). At the concrete 800x600 pipeline state, a
viewport resize to 1024x768 (both positive) leaves the pattern layer
RenderTarget at 800x600: ProceduralPatternLayer registers no resize
listener (module.js:1674-1678), so not every offscreen RenderTarget
takes the new viewport dimensions after the resize notification. -/
theorem c4_resize_counterexample :
    ¬((sysSample.onResize 1024 768 camSample (some targetsSample)).patternTexDim
        = (1024, 768)) := by
  decide

/-- Claim C4 (amended): on a window-resize notification, the layers that
registered resize listeners react: both CloudShadowsLayer mask
RenderTargets take the new dimensions (w, h) and its _needsMaskUpdate
flag is set, so they re-render on the next frame; but
ProceduralPatternLayer registered no resize listener, so its
renderTexture and its noise texture keep their previous dimensions and
its whole state (the _needsUpdate flag included) is untouched. -/
theorem c4_resize_amended (w h : Nat) (cam : CameraState)
    (targets : Option (List (String × Option String))) (sys : EffectsSystem) :
    (sys.onResize w h cam targets).cloud.combinedMaskDim = (w, h) ∧
    (sys.onResize w h cam targets).cloud.blurredMaskDim = (w, h) ∧
    (sys.onResize w h cam targets).cloud.needsMaskUpdate = true ∧
    (sys.onResize w h cam targets).patternTexDim = sys.patternTexDim ∧
    (sys.onResize w h cam targets).noiseTexDim = sys.noiseTexDim ∧
    (sys.onResize w h cam targets).patternLayer = sys.patternLayer := by
  rcases targets with _ | ts
  · exact ⟨rfl, rfl, rfl, rfl, rfl, rfl⟩
  · exact ⟨rfl, rfl, rfl, rfl, rfl, rfl⟩

/-- Claim C8: the mask blur radius gates the blur pass. After a
configuration with radius r is applied: if r <= 0 the blur filter is
disabled, no frame performs the blur render, and the filter never binds
the blurred texture to uOutdoorsMask (it binds the unblurred combined
mask, or the empty texture when the layer is idle); if r > 0 the blur
filter is enabled and the next animated frame of a visible layer with
active mask sprites performs the blur render and binds the blurred
texture. -/
theorem c8_maskBlur_gate (trig : TrigOracle) (cfg : MapShineConfig)
    (cs : CloudShadowsLayer) (hf : cs.cloudFilter.isSome = true) :
    ((cfg.cloudShadows.maskBlur.getD 0 ≤ 0 →
        (cs.updateFromConfig trig cfg).maskBlurEnabled = false ∧
        ∀ (dt : ℚ) (cam : CameraState) (tv : Bool),
          CloudEvent.blurRender ∉ ((cs.updateFromConfig trig cfg).onAnimate dt cam tv).2 ∧
          ((cs.updateFromConfig trig cfg).onAnimate dt cam tv).1.cloudFilter.map
              CloudUniforms.uOutdoorsMask ≠ some CloudMask.blurred) ∧
      (0 < cfg.cloudShadows.maskBlur.getD 0 →
        (cs.updateFromConfig trig cfg).maskBlurEnabled = true ∧
        ∀ (dt : ℚ) (cam : CameraState),
          (cfg.enabled && cfg.cloudShadows.enabled) = true →
          cs.maskSprites ≠ [] →
          CloudEvent.blurRender ∈ ((cs.updateFromConfig trig cfg).onAnimate dt cam true).2 ∧
          ((cs.updateFromConfig trig cfg).onAnimate dt cam true).1.cloudFilter.map
              CloudUniforms.uOutdoorsMask = some CloudMask.blurred)) := by
  rcases hcf : cs.cloudFilter with _ | u0
  · rw [hcf] at hf
    simp at hf
  · constructor
    · intro hr
      have hdis : decide (0 < cfg.cloudShadows.maskBlur.getD 0) = false := by
        simp
        exact hr
      refine ⟨by simp [CloudShadowsLayer.updateFromConfig, hcf, hdis], ?_⟩
      intro dt cam tv
      constructor
      · simp only [CloudShadowsLayer.updateFromConfig, CloudShadowsLayer.onAnimate, hcf, hdis]
        split
        · simp
        · simp
      · simp only [CloudShadowsLayer.updateFromConfig, CloudShadowsLayer.onAnimate, hcf, hdis]
        split
        · simp
        · simp
    · intro hr
      have hen : decide (0 < cfg.cloudShadows.maskBlur.getD 0) = true := by
        simp
        exact hr
      refine ⟨by simp [CloudShadowsLayer.updateFromConfig, hcf, hen], ?_⟩
      intro dt cam hv hms
      rw [Bool.and_eq_true] at hv
      constructor
      · simp [CloudShadowsLayer.updateFromConfig, CloudShadowsLayer.onAnimate,
          hcf, hen, hv.1, hv.2, hms]
      · simp [CloudShadowsLayer.updateFromConfig, CloudShadowsLayer.onAnimate,
          hcf, hen, hv.1, hv.2, hms]

/-- Witness for C8: radius 0 disables the blur pass; radius 2 enables it
and the sample layer performs the blur render on the next frame. -/
theorem c8_maskBlur_gate_witness :
    (cloudSample.updateFromConfig trigSample cfgBlurOff).maskBlurEnabled = false ∧
    (cloudSample.updateFromConfig trigSample cfgSample).maskBlurEnabled = true ∧
    CloudEvent.blurRender ∈
      ((cloudSample.updateFromConfig trigSample cfgSample).onAnimate 1 camSample true).2 :=
  ⟨((c8_maskBlur_gate trigSample cfgBlurOff cloudSample rfl).1 (by decide)).1,
   ((c8_maskBlur_gate trigSample cfgSample cloudSample rfl).2 (by decide)).1,
   ((((c8_maskBlur_gate trigSample cfgSample cloudSample rfl).2 (by decide)).2
       1 camSample (by decide) (by decide))).1⟩

/-- Claim C9: after a CloudShadowsLayer.updateEffectTargets refresh, the
sprite map is keyed exactly by the currently bound target ids (those
whose target declares the outdoors texture): every bound id has a
sprite; an id that is not bound has no entry left in the map; a sprite
already present for a still-bound id is the very same sprite as before
(reused, never destroyed and recreated); and the sprite of every id
removed since the previous refresh is in the destroyed list, so no
dangling reference stays reachable through the map. -/
theorem c9_targetBinding_refresh (targets : List (String × Option String))
    (self : CloudShadowsLayer) (id : String) :
    ((memb (boundIds targets) id = true →
        (alLookup ((self.updateEffectTargets targets).1.maskSprites) id).isSome = true) ∧
      (memb (boundIds targets) id = false →
        alLookup ((self.updateEffectTargets targets).1.maskSprites) id = none) ∧
      (∀ v, memb (boundIds targets) id = true →
        alLookup self.maskSprites id = some v →
        alLookup ((self.updateEffectTargets targets).1.maskSprites) id = some v) ∧
      (∀ v, memb (boundIds targets) id = false →
        alLookup self.maskSprites id = some v →
        v ∈ (self.updateEffectTargets targets).2)) := by
  have hms : (self.updateEffectTargets targets).1.maskSprites
      = (pruneStale (boundIds targets)
          (addMissing (boundIds targets) self.maskSprites self.spriteFresh).1).1 := rfl
  have hd : (self.updateEffectTargets targets).2
      = (pruneStale (boundIds targets)
          (addMissing (boundIds targets) self.maskSprites self.spriteFresh).1).2 := rfl
  refine ⟨?_, ?_, ?_, ?_⟩
  · intro hb
    rw [hms, pruneStale_lookup, if_pos hb]
    exact addMissing_lookup_isSome id (boundIds targets) self.maskSprites self.spriteFresh hb
  · intro hb
    rw [hms, pruneStale_lookup, if_neg (by simp [hb])]
  · intro v hb hl
    rw [hms, pruneStale_lookup, if_pos hb]
    exact addMissing_lookup_mono id v (boundIds targets) self.maskSprites self.spriteFresh hl
  · intro v hb hl
    rw [hd]
    obtain ⟨ext, hext⟩ :=
      addMissing_extends (boundIds targets) self.maskSprites self.spriteFresh
    refine pruneStale_destroyed _ _ id v ?_ hb
    rw [hext]
    exact List.mem_append_left _ (alLookup_mem _ _ _ hl)

/-- Witness for C9: tile T1 loses its outdoors binding between frames;
after the refresh its sprite (identity 7) is destroyed and gone from the
map, while the background, still bound, has a sprite. -/
theorem c9_targetBinding_refresh_witness :
    alLookup ((cloudSample.updateEffectTargets targetsSample).1.maskSprites) "T1" = none ∧
    7 ∈ (cloudSample.updateEffectTargets targetsSample).2 ∧
    (alLookup ((cloudSample.updateEffectTargets targetsSample).1.maskSprites)
        "background").isSome = true :=
  ⟨(c9_targetBinding_refresh targetsSample cloudSample "T1").2.1 (by decide),
   (c9_targetBinding_refresh targetsSample cloudSample "T1").2.2.2 7 (by decide) (by decide),
   (c9_targetBinding_refresh targetsSample cloudSample "background").1 (by decide)⟩

/-- Claim C10: when the metallic shine layer is not visible, its
updateEffectTargets returns immediately (module.js:4415): the layer — all
three sprite maps included — is returned unchanged and no sprite is
destroyed, in particular sprites of vanished targets survive while the
effect is disabled. -/
theorem c10_invisibleMetallic_noop (targets : List (String × Option String))
    (self : MetallicShineLayer) (h : self.visible = false) :
    self.updateEffectTargets targets = (self, []) := by
  simp [MetallicShineLayer.updateEffectTargets, h]

/-- Witness for C10: the invisible sample layer keeps its T1 sprites even
though T1 is no longer bound. -/
theorem c10_invisibleMetallic_noop_witness :
    metallicSample.updateEffectTargets targetsSample = (metallicSample, []) :=
  c10_invisibleMetallic_noop targetsSample metallicSample rfl
